import Mathlib

/-!
Verification of the intent-resolution and confirmation-generation pipeline of a
todo-list chat backend. The Python sources under `backend/skills` and
`backend/agents` are shallowly embedded: strings become `List Char`, floats
(only used as confidences and similarity scores) become `Rat` via `mkRat`, and
the regex patterns of the sources are embedded as executable scanning functions
whose semantics follow leftmost-match backtracking of the Python `re` module,
specialised pattern by pattern.  Each definition carries a comment naming the
source function it embeds.
-/

/-- Python strings are modelled as lists of characters. -/
abbrev Str := List Char

/-- The whitespace characters stripped by Python `str.strip()` and matched by
the regex class `\s` (ASCII part; the sources only ever deal with ASCII). -/
def isPySpace (c : Char) : Bool :=
  c == ' ' || c == '\t' || c == '\n' || c == '\r' || c == '\x0b' || c == '\x0c'

/-- Python `str.lower()` (ASCII; titles and messages in the repo are ASCII). -/
def pyLower (s : Str) : Str := s.map Char.toLower

/-- Python `str.strip()`. -/
def pyStrip (s : Str) : Str :=
  ((s.dropWhile isPySpace).reverse.dropWhile isPySpace).reverse

/-- Helper of `pySplit`: accumulates the current word (reversed). -/
def pySplitGo : Str → Str → List Str
  | [], acc => if acc = [] then [] else [acc.reverse]
  | c :: cs, acc =>
    if isPySpace c then
      if acc = [] then pySplitGo cs [] else acc.reverse :: pySplitGo cs []
    else pySplitGo cs (c :: acc)

/-- Python `str.split()` with no argument: splits on whitespace runs and
produces no empty words. -/
def pySplit (s : Str) : List Str := pySplitGo s []

/-- Python `int()` on a string of digits. -/
def digitsToNat (ds : Str) : Nat :=
  ds.foldl (fun n c => 10 * n + (c.toNat - '0'.toNat)) 0

/-- Substring test, Python `needle in hay`. -/
def isSub (needle hay : Str) : Bool :=
  needle.isPrefixOf hay ||
    match hay with
    | [] => false
    | _ :: cs => isSub needle cs

/-- The apostrophe character; several source strings and patterns contain it. -/
def apos : Char := Char.ofNat 39

/-- Regex word character, `\w` (ASCII part). -/
def isWordChar (c : Char) : Bool := c.isAlphanum || c == '_'

/-- Consume a literal when it is a prefix; `none` models a failed match. -/
def litP (w : Str) (s : Str) : Option Str :=
  if w.isPrefixOf s then some (s.drop w.length) else none

/-- Regex `\s+` (greedy): requires at least one whitespace character. -/
def wsP1 (s : Str) : Option Str :=
  if s.head?.any isPySpace then some (s.dropWhile isPySpace) else none

/-- Regex `\s*` (greedy). -/
def wsP0 (s : Str) : Str := s.dropWhile isPySpace

namespace IDResolverSkill

/-- `TaskReference` of `skills/id_resolver.py`. -/
structure TaskReference where
  id : Nat
  title : Str
  completed : Bool := false
deriving DecidableEq

/-- `ResolvedTask` of `skills/id_resolver.py`; `resolution_method` is one of
`"exact_id"`, `"ordinal"`, `"title_match"`, `"none"`. -/
structure ResolvedTask where
  task_id : Option Nat := none
  confidence : Rat := mkRat 0 1
  matched_title : Option Str := none
  resolution_method : String := "none"
deriving DecidableEq

/-- First maximal digit run of a string, if any. -/
def firstDigitRun : Str → Option Str
  | [] => none
  | c :: cs =>
    if c.isDigit then some ((c :: cs).takeWhile Char.isDigit) else firstDigitRun cs

/-- Capture of the first match of `ID_PATTERNS[0]`,
`(?:task|todo|item)?\s*#?\s*(\d+)`.  Everything before the capture group is
optional and contains no digit, so the leftmost match captures exactly the
first maximal digit run of the text. -/
def pat1 (text : Str) : Option Nat := (firstDigitRun text).map digitsToNat

/-- Match of `ID_PATTERNS[1]` starting at the given position: after `id` or
`number` comes `\s*[:\-]?\s*(\d+)`.  The greedy whitespace runs are
deterministic here because the separator and the digits are not whitespace. -/
def pat2At (s : Str) : Option Nat :=
  let after (kw : Str) : Option Nat :=
    match litP kw s with
    | none => none
    | some r =>
      let r1 := wsP0 r
      let r2 := match r1 with
        | c :: cs => if c = ':' || c = '-' then cs else r1
        | [] => []
      let ds := (wsP0 r2).takeWhile Char.isDigit
      if ds = [] then none else some (digitsToNat ds)
  match after ("id".toList) with
  | some n => some n
  | none => after ("number".toList)

/-- Capture of the first match of `ID_PATTERNS[1]`,
`(?:id|number)\s*[:\-]?\s*(\d+)`: leftmost position where `pat2At` succeeds. -/
def pat2 : Str → Option Nat
  | [] => none
  | c :: cs =>
    match pat2At (c :: cs) with
    | some n => some n
    | none => pat2 cs

/-- Capture of the first match of `ID_PATTERNS[2]`, `#(\d+)`. -/
def pat3 : Str → Option Nat
  | [] => none
  | c :: cs =>
    if c = '#' then
      let ds := cs.takeWhile Char.isDigit
      if ds = [] then pat3 cs else some (digitsToNat ds)
    else pat3 cs

/-- The loop body of `_try_direct_id`: for each pattern with a match, accept
the captured number when some candidate carries that id, otherwise move on to
the next pattern. -/
def directIdGo (tasks : List TaskReference) : List (Option Nat) → ResolvedTask
  | [] => {}
  | none :: rest => directIdGo tasks rest
  | some n :: rest =>
    match tasks.find? (fun t => t.id == n) with
    | some t =>
      { task_id := some n, confidence := mkRat 1 1,
        matched_title := some t.title, resolution_method := "exact_id" }
    | none => directIdGo tasks rest

/-- `IDResolverSkill._try_direct_id`. -/
def tryDirectId (text : Str) (tasks : List TaskReference) : ResolvedTask :=
  directIdGo tasks [pat1 text, pat2 text, pat3 text]

/-- `IDResolverSkill.ORDINALS` in dict insertion order; `-1` encodes the
last/latest/newest family, resolved to `tasks[0]`. -/
def ORDINALS : List (Str × Int) :=
  [("first".toList, 0), ("1st".toList, 0),
   ("second".toList, 1), ("2nd".toList, 1),
   ("third".toList, 2), ("3rd".toList, 2),
   ("fourth".toList, 3), ("4th".toList, 3),
   ("fifth".toList, 4), ("5th".toList, 4),
   ("last".toList, -1), ("latest".toList, -1), ("newest".toList, -1),
   ("most recent".toList, -1)]

/-- The indexing step of `_try_ordinal`: `tasks[0]` for the `-1` family,
`tasks[index]` otherwise; `none` models the caught `IndexError`. -/
def taskAt (tasks : List TaskReference) (idx : Int) : Option TaskReference :=
  if idx = -1 then tasks[0]? else tasks[idx.toNat]?

/-- The loop of `_try_ordinal`: ordinal keywords are tried in dict order; an
out-of-range index (`IndexError`) is swallowed and the scan continues. -/
def ordinalGo (text : Str) (tasks : List TaskReference) :
    List (Str × Int) → ResolvedTask
  | [] => {}
  | (kw, idx) :: rest =>
    if isSub kw text then
      match taskAt tasks idx with
      | some t =>
        { task_id := some t.id, confidence := mkRat 9 10,
          matched_title := some t.title, resolution_method := "ordinal" }
      | none => ordinalGo text tasks rest
    else ordinalGo text tasks rest

/-- `IDResolverSkill._try_ordinal`. -/
def tryOrdinal (text : Str) (tasks : List TaskReference) : ResolvedTask :=
  ordinalGo text tasks ORDINALS

/-- `IDResolverSkill`'s stop word set. -/
def STOP_WORDS : List Str :=
  ["the", "a", "an", "task", "todo", "item", "called", "named",
   "titled", "about", "for", "to", "my", "that", "this", "one",
   "please", "can", "you", "complete", "finish", "delete", "remove",
   "mark", "done", "update", "edit", "change"].map String.toList

/-- `IDResolverSkill._remove_stop_words`. -/
def removeStopWords (text : Str) : Str :=
  List.intercalate (" ".toList)
    ((pySplit text).filter (fun w => !(STOP_WORDS.contains w)))

/-- `IDResolverSkill._calculate_similarity`: 1.0 on equality, 0.9 on
containment, otherwise Jaccard similarity of the word sets. -/
def calculateSimilarity (t1 t2 : Str) : Rat :=
  if t1 = [] ∨ t2 = [] then mkRat 0 1
  else if t1 = t2 then mkRat 1 1
  else if isSub t1 t2 || isSub t2 t1 then mkRat 9 10
  else
    let w1 := (pySplit t1).dedup
    let w2 := (pySplit t2).dedup
    if w1 = [] ∨ w2 = [] then mkRat 0 1
    else
      let inter := (w1.filter (fun w => w2.contains w)).length
      let union := (w1 ++ w2).dedup.length
      if 0 < union then mkRat inter union else mkRat 0 1

/-- Similarity score of one candidate against the input text, as computed by
`_try_title_match` (both sides pass through `_remove_stop_words`, the title
lower-cased first). -/
def titleScore (text : Str) (t : TaskReference) : Rat :=
  calculateSimilarity (removeStopWords text) (removeStopWords (pyLower t.title))

/-- The loop of `_try_title_match`, carrying `best_match` and `best_score`; a
candidate replaces the best only when its score strictly beats the best so far
and clears the 0.5 threshold. -/
def titleGo (text : Str) : List TaskReference →
    Option TaskReference × Rat → Option TaskReference × Rat
  | [], acc => acc
  | t :: rest, (best, bestScore) =>
    let score := titleScore text t
    if bestScore < score ∧ mkRat 1 2 ≤ score then
      titleGo text rest (some t, score)
    else
      titleGo text rest (best, bestScore)

/-- `IDResolverSkill._try_title_match`. -/
def tryTitleMatch (text : Str) (tasks : List TaskReference) : ResolvedTask :=
  match titleGo text tasks (none, mkRat 0 1) with
  | (some t, s) =>
    { task_id := some t.id, confidence := s,
      matched_title := some t.title, resolution_method := "title_match" }
  | (none, _) => {}

/-- `IDResolverSkill.execute`: normalise, then direct id, ordinal and title
matching in that order, falling back to the empty result. -/
def execute (user_input : Str) (tasks : List TaskReference) : ResolvedTask :=
  if user_input = [] ∨ tasks = [] then {}
  else
    let text := pyStrip (pyLower user_input)
    let r1 := tryDirectId text tasks
    if r1.task_id.isSome then r1
    else
      let r2 := tryOrdinal text tasks
      if r2.task_id.isSome then r2
      else
        let r3 := tryTitleMatch text tasks
        if r3.task_id.isSome then r3 else {}

end IDResolverSkill

/-! ### Regex scanning combinators

The keyword classes of `skills/filter_mapper.py` are `\b`-anchored regexes
searched with `re.search`.  Each pattern is embedded in continuation style: a
matcher `Str → Bool` receives the rest of the input at the current position.
`scanB` supplies `re.search`'s scan over every start position together with the
leading word-boundary check (every pattern of the source starts with `\b`
followed by a word character, so the leading boundary holds exactly when the
previous character is absent or is not a word character). -/

/-- Leading `\b` before a word character: start of text or non-word before. -/
def boundaryBefore : Option Char → Bool
  | none => true
  | some c => !isWordChar c

/-- `\b` after a word character: end of text or non-word next. -/
def bdA (s : Str) : Bool :=
  match s.head? with
  | none => true
  | some c => !isWordChar c

/-- `\b` after a whitespace character: a word character must follow. -/
def bdW (s : Str) : Bool :=
  match s.head? with
  | none => false
  | some c => isWordChar c

/-- Scan helper for `re.search`, tracking the previous character for the
leading word boundary. -/
def scanBGo (p : Str → Bool) : Option Char → Str → Bool
  | prev, [] => boundaryBefore prev && p []
  | prev, c :: cs => (boundaryBefore prev && p (c :: cs)) || scanBGo p (some c) cs

/-- `re.search` of a `\b`-leading pattern `p`: true when `p` matches starting
at some position with a word boundary before it. -/
def scanB (p : Str → Bool) (text : Str) : Bool := scanBGo p none text

/-- Concatenation with a literal. -/
def pLit (w : Str) (k : Str → Bool) (s : Str) : Bool :=
  match litP w s with
  | some r => k r
  | none => false

/-- Concatenation with `\s+`.  Greedy consumption is deterministic here: in
every embedded pattern the continuation starts with a non-whitespace literal
or a boundary test that a shorter run could not satisfy either. -/
def pWs1 (k : Str → Bool) (s : Str) : Bool :=
  match wsP1 s with
  | some r => k r
  | none => false

/-- An optional group `(?:...)?`: try the group, then try skipping it, exactly
the backtracking order of a greedy optional. -/
def pOpt (b : (Str → Bool) → Str → Bool) (k : Str → Bool) (s : Str) : Bool :=
  b k s || k s

/-- A word ending the pattern: literal followed by `\b`. -/
def wordAt (w : Str) : Str → Bool := pLit w bdA

namespace FilterMapperSkill

/-- `\bcompleted?\b`: the greedy optional `d?` makes this equivalent to the
word `completed` or the word `complete`. -/
def patCompleted (s : Str) : Bool :=
  wordAt ("completed".toList) s || wordAt ("complete".toList) s

/-- `\bchecked\s*off\b`. -/
def patCheckedOff : Str → Bool :=
  pLit ("checked".toList) (fun r => wordAt ("off".toList) (wsP0 r))

/-- `\bmarked\s*(?:as\s+)?(?:done|complete)\b`. -/
def patMarkedDone : Str → Bool :=
  pLit ("marked".toList) (fun r =>
    let alt := fun x => wordAt ("done".toList) x || wordAt ("complete".toList) x
    pOpt (fun k => pLit ("as".toList) (pWs1 k)) alt (wsP0 r))

/-- `(?:finished|completed|done)\b`, the tail of the long completed pattern. -/
def endAlt3 (s : Str) : Bool :=
  wordAt ("finished".toList) s || wordAt ("completed".toList) s ||
    wordAt ("done".toList) s

/-- `\bwhat\s+(?:have\s+)?i\s+(?:have\s+)?(?:finished|completed|done)\b`. -/
def patWhatHaveIDone : Str → Bool :=
  pLit ("what".toList) (pWs1 (pOpt (fun k => pLit ("have".toList) (pWs1 k))
    (pLit ("i".toList) (pWs1 (pOpt (fun k => pLit ("have".toList) (pWs1 k))
      endAlt3)))))

/-- `FilterMapperSkill.COMPLETED_KEYWORDS` as `re.search` matchers, in list
order. -/
def COMPLETED_KEYWORDS : List (Str → Bool) :=
  [scanB patCompleted,
   scanB (wordAt ("finished".toList)),
   scanB (wordAt ("done".toList)),
   scanB patCheckedOff,
   scanB patMarkedDone,
   scanB (wordAt ("accomplished".toList)),
   scanB patWhatHaveIDone]

/-- `\bleft\s+(?:to\s+do)?\b`: after the mandatory whitespace either `to do`
ends at a word boundary, or the boundary after the whitespace requires a word
character to follow. -/
def patLeft : Str → Bool :=
  pLit ("left".toList) (pWs1 (fun r1 =>
    pLit ("to".toList) (pWs1 (wordAt ("do".toList))) r1 || bdW r1))

/-- `\bto\s*-?\s*do\b`. -/
def patToDo : Str → Bool :=
  pLit ("to".toList) (fun r =>
    let r1 := wsP0 r
    let r2 := match r1 with
      | c :: cs => if c = '-' then cs else r1
      | [] => []
    wordAt ("do".toList) (wsP0 r2))

/-- `\bnot\s+(?:done|completed?|finished)\b`. -/
def patNotDone : Str → Bool :=
  pLit ("not".toList) (pWs1 (fun x =>
    wordAt ("done".toList) x || patCompleted x || wordAt ("finished".toList) x))

/-- `\bwhat(?:'s|\s+is)\s+left\b`. -/
def patWhatsLeft : Str → Bool :=
  pLit ("what".toList) (fun r =>
    pLit [apos, 's'] (pWs1 (wordAt ("left".toList))) r ||
      pWs1 (pLit ("is".toList) (pWs1 (wordAt ("left".toList)))) r)

/-- `(?:need|have)\s+to\s+do\b`, tail of the long pending pattern. -/
def needHaveToDo (s : Str) : Bool :=
  let core := pWs1 (pLit ("to".toList) (pWs1 (wordAt ("do".toList))))
  pLit ("need".toList) core s || pLit ("have".toList) core s

/-- `\bwhat\s+(?:do\s+)?i\s+(?:still\s+)?(?:need|have)\s+to\s+do\b`. -/
def patWhatINeedToDo : Str → Bool :=
  pLit ("what".toList) (pWs1 (pOpt (fun k => pLit ("do".toList) (pWs1 k))
    (pLit ("i".toList) (pWs1 (pOpt (fun k => pLit ("still".toList) (pWs1 k))
      needHaveToDo)))))

/-- `\bwhat\s+(?:else\s+)?(?:do\s+)?i\s+need\s+to\b`. -/
def patWhatElseINeedTo : Str → Bool :=
  pLit ("what".toList) (pWs1 (pOpt (fun k => pLit ("else".toList) (pWs1 k))
    (pOpt (fun k => pLit ("do".toList) (pWs1 k))
      (pLit ("i".toList) (pWs1 (pLit ("need".toList)
        (pWs1 (wordAt ("to".toList)))))))))

/-- `FilterMapperSkill.PENDING_KEYWORDS` as `re.search` matchers, in list
order. -/
def PENDING_KEYWORDS : List (Str → Bool) :=
  [scanB (wordAt ("pending".toList)),
   scanB (wordAt ("incomplete".toList)),
   scanB (wordAt ("unfinished".toList)),
   scanB (wordAt ("outstanding".toList)),
   scanB (wordAt ("remaining".toList)),
   scanB patLeft,
   scanB patToDo,
   scanB patNotDone,
   scanB (wordAt ("open".toList)),
   scanB (wordAt ("active".toList)),
   scanB patWhatsLeft,
   scanB patWhatINeedToDo,
   scanB patWhatElseINeedTo]

/-- `FilterMapperSkill.ALL_KEYWORDS` as `re.search` matchers, in list order. -/
def ALL_KEYWORDS : List (Str → Bool) :=
  [scanB (wordAt ("all".toList)),
   scanB (wordAt ("everything".toList)),
   scanB (pLit ("full".toList) (pWs1 (wordAt ("list".toList)))),
   scanB (wordAt ("entire".toList)),
   scanB (wordAt ("whole".toList))]

/-- The status literal of `FilterParams`. -/
inductive FilterStatus
  | all
  | pending
  | completed
deriving DecidableEq

/-- `FilterParams` of `skills/filter_mapper.py`, with its field defaults. -/
structure FilterParams where
  status : FilterStatus := .all
  confidence : Rat := mkRat 1 1
deriving DecidableEq

/-- `FilterMapperSkill.execute`: falsy input takes the default (confidence
1.0); otherwise the keyword classes are checked in the order all, completed,
pending, with a low-confidence `all` default. -/
def execute (user_input : Str) : FilterParams :=
  if user_input = [] then { status := .all }
  else
    let text := pyStrip (pyLower user_input)
    if ALL_KEYWORDS.any (fun m => m text) then
      { status := .all, confidence := mkRat 95 100 }
    else if COMPLETED_KEYWORDS.any (fun m => m text) then
      { status := .completed, confidence := mkRat 9 10 }
    else if PENDING_KEYWORDS.any (fun m => m text) then
      { status := .pending, confidence := mkRat 9 10 }
    else { status := .all, confidence := mkRat 7 10 }

end FilterMapperSkill

/-- Decimal rendering of a number interpolated into an f-string. -/
def natStr (n : Nat) : Str := (toString n).toList

/-- A title interpolated as `\"{title}\"`. -/
def quoted (t : Str) : Str := '"' :: (t ++ ['"'])

namespace ConfirmationGeneratorSkill

/-- `TaskInfo` of `skills/confirmation_generator.py`. -/
structure TaskInfo where
  id : Nat
  title : Str
  description : Option Str := none
  completed : Bool := false
deriving DecidableEq

/-- Python truthiness of an optional string (`None` and `""` are falsy). -/
def optStrFalsy : Option Str → Bool
  | none => true
  | some s => s.isEmpty

/-- Python truthiness of an optional list (`None` and `[]` are falsy). -/
def optListFalsy : Option (List Str) → Bool
  | none => true
  | some l => l.isEmpty

/-- `ConfirmationGeneratorSkill._confirm_created`. -/
def confirmCreated (task : Option TaskInfo) : Str :=
  match task with
  | none => "Task created successfully.".toList
  | some t =>
    let msg := "I".toList ++ [apos] ++ "ve added ".toList ++ quoted t.title ++
      " to your tasks.".toList
    match t.description with
    | some d => if d.isEmpty then msg else msg ++ " (".toList ++ d ++ ")".toList
    | none => msg

/-- `ConfirmationGeneratorSkill._confirm_completed`. -/
def confirmCompleted (task : Option TaskInfo) : Str :=
  match task with
  | none => "Task marked as complete.".toList
  | some t => "Nice work! ".toList ++ quoted t.title ++ " is now complete.".toList

/-- `ConfirmationGeneratorSkill._confirm_already_completed`. -/
def confirmAlreadyCompleted (task : Option TaskInfo) : Str :=
  match task with
  | none => "This task is already completed.".toList
  | some t => quoted t.title ++ " was already marked as complete.".toList

/-- `ConfirmationGeneratorSkill._confirm_deleted`. -/
def confirmDeleted (task : Option TaskInfo) : Str :=
  match task with
  | none => "Task deleted.".toList
  | some t =>
    "I".toList ++ [apos] ++ "ve removed ".toList ++ quoted t.title ++
      " from your tasks.".toList

/-- `ConfirmationGeneratorSkill._format_changes`: one item verbatim, two items
joined by " and ", three or more comma-joined with an Oxford ", and " before
the last.  The source indexes `changes[-1]`, so the empty case cannot occur
through `execute` (it is guarded by the caller); it is mapped to the empty
string here. -/
def formatChanges : List Str → Str
  | [] => []
  | [c] => c
  | [a, b] => a ++ " and ".toList ++ b
  | a :: b :: c :: rest =>
    List.intercalate (", ".toList) ((a :: b :: c :: rest).dropLast) ++
      ", and ".toList ++ (a :: b :: c :: rest).getLast (by simp)

/-- `ConfirmationGeneratorSkill._confirm_updated`. -/
def confirmUpdated (task : Option TaskInfo) (changes : Option (List Str)) : Str :=
  match task with
  | none => "Task updated successfully.".toList
  | some t =>
    if optListFalsy changes then
      "No changes were made to ".toList ++ quoted t.title ++ ".".toList
    else
      "I".toList ++ [apos] ++ "ve updated the ".toList ++
        formatChanges (changes.getD []) ++ " for ".toList ++ quoted t.title ++
        ".".toList

/-- Python truthiness of the optional task list argument. -/
def optTasksFalsy : Option (List TaskInfo) → Bool
  | none => true
  | some l => l.isEmpty

/-- `ConfirmationGeneratorSkill._confirm_listed`. -/
def confirmListed (tasks : Option (List TaskInfo))
    (filter_applied : Option String) : Str :=
  if optTasksFalsy tasks then
    if filter_applied = some "completed" then
      "You haven".toList ++ [apos] ++ "t completed any tasks yet.".toList
    else if filter_applied = some "pending" then
      "Great news! You have no pending tasks.".toList
    else
      "You don".toList ++ [apos] ++
        "t have any tasks yet. Would you like to add one?".toList
  else
    let ts := tasks.getD []
    let count := ts.length
    let pending := (ts.filter (fun t => !t.completed)).length
    let completed := count - pending
    if filter_applied = some "pending" then
      match ts with
      | [t] => "You have 1 pending task: ".toList ++ quoted t.title
      | _ => "You have ".toList ++ natStr count ++ " pending tasks.".toList
    else if filter_applied = some "completed" then
      match ts with
      | [t] =>
        "You".toList ++ [apos] ++ "ve completed 1 task: ".toList ++ quoted t.title
      | _ =>
        "You".toList ++ [apos] ++ "ve completed ".toList ++ natStr count ++
          " tasks.".toList
    else
      match ts with
      | [t] =>
        "You have 1 task (".toList ++
          (if t.completed then "completed".toList else "pending".toList) ++
          "): ".toList ++ quoted t.title
      | _ =>
        let parts :=
          (if 0 < pending then [natStr pending ++ " pending".toList] else []) ++
            (if 0 < completed then [natStr completed ++ " completed".toList]
             else [])
        "You have ".toList ++ natStr count ++ " tasks (".toList ++
          List.intercalate (", ".toList) parts ++ ").".toList

/-- `ConfirmationGeneratorSkill.execute`: dispatch on the action literal, with
the generic fallback for unknown actions. -/
def execute (action : String) (task : Option TaskInfo)
    (tasks : Option (List TaskInfo)) (changes : Option (List Str))
    (filter_applied : Option String) : Str :=
  if action = "created" then confirmCreated task
  else if action = "completed" then confirmCompleted task
  else if action = "already_completed" then confirmAlreadyCompleted task
  else if action = "deleted" then confirmDeleted task
  else if action = "updated" then confirmUpdated task changes
  else if action = "listed" then confirmListed tasks filter_applied
  else "Operation completed.".toList

end ConfirmationGeneratorSkill

namespace ContextBuilderSkill

/-- `MessageContext` of `skills/context_builder.py`. -/
structure MessageContext where
  role : Str
  content : Str
deriving DecidableEq

/-- `ContextBuilderSkill.MAX_HISTORY_MESSAGES`. -/
def MAX_HISTORY_MESSAGES : Nat := 20

/-- `ContextBuilderSkill._truncate_history`: a history within the limit is
returned whole, a longer one keeps its most recent entries
(`history[-MAX_HISTORY_MESSAGES:]`). -/
def truncateHistory (history : List MessageContext) : List MessageContext :=
  if history.length ≤ MAX_HISTORY_MESSAGES then history
  else history.drop (history.length - MAX_HISTORY_MESSAGES)

end ContextBuilderSkill

/-- Case-insensitive literal match (the task-parser regexes carry
`re.IGNORECASE` and run over un-lowercased text); `w` is given lowercase. -/
def litPI (w : Str) (s : Str) : Option Str :=
  if (s.take w.length).map Char.toLower = w then some (s.drop w.length) else none

namespace TaskParserSkill

/-- `ParsedTask` of `skills/task_parser.py`. -/
structure ParsedTask where
  title : Str
  description : Option Str := none
  has_title : Bool := true
deriving DecidableEq

/-- The keyword alternation `(?:description|desc|details?|note)` of
`DESCRIPTION_PATTERNS[0]` in the order the regex engine tries it (the greedy
`s?` puts `details` before `detail`). -/
def descKeywords : List Str :=
  ["description", "desc", "details", "detail", "note"].map String.toList

/-- The tail `\s*[:\-]?\s*(.+)$` of `DESCRIPTION_PATTERNS[0]`: the captured
group under greedy matching with backtracking.  When everything after the
separator is whitespace the engine gives one character back to satisfy `.+`,
and when nothing follows the separator the optional separator itself is given
back, so the group is never empty while any character remains. -/
def descAfterKw (r : Str) : Option Str :=
  let r1 := wsP0 r
  match r1 with
  | [] =>
    match r.getLast? with
    | some c => some [c]
    | none => none
  | c :: cs =>
    if c = ':' || c = '-' then
      let r3 := wsP0 cs
      if r3 ≠ [] then some r3
      else
        match cs.getLast? with
        | some x => some [x]
        | none => some r1
    else some r1

/-- Keyword alternation of `DESCRIPTION_PATTERNS[0]` at one position, with
fallback across alternatives when a later part of the pattern fails. -/
def descKwAltGo (s : Str) : List Str → Option Str
  | [] => none
  | kw :: rest =>
    match litPI kw s with
    | some r =>
      match descAfterKw r with
      | some g => some g
      | none => descKwAltGo s rest
    | none => descKwAltGo s rest

/-- `DESCRIPTION_PATTERNS[0]` without the optional `with` prefix. -/
def descKwAlt (s : Str) : Option Str := descKwAltGo s descKeywords

/-- `DESCRIPTION_PATTERNS[0]`,
`(?:with\s+)?(?:description|desc|details?|note)\s*[:\-]?\s*(.+)$`, matched at
one position: the greedy optional `with` branch is tried first. -/
def descPatAAt (s : Str) : Option Str :=
  match
    (match litPI ("with".toList) s with
     | some r =>
       match wsP1 r with
       | some r2 => descKwAlt r2
       | none => none
     | none => none) with
  | some g => some g
  | none => descKwAlt s

/-- `DESCRIPTION_PATTERNS[1]`, `\s+-\s+(.+)$`, matched at one position.  When
only whitespace follows the dash the engine gives one whitespace character
back to `.+`. -/
def descPatBAt (s : Str) : Option Str :=
  match wsP1 s with
  | some r =>
    match litP ("-".toList) r with
    | some r2 =>
      let w := r2.takeWhile isPySpace
      let rest := r2.dropWhile isPySpace
      if w = [] then none
      else if rest ≠ [] then some rest
      else if 2 ≤ w.length then
        match w.getLast? with
        | some x => some [x]
        | none => none
      else none
    | none => none
  | none => none

/-- `DESCRIPTION_PATTERNS[2]`, `\s+\((.+)\)$`: the greedy `.+` reaches to the
end and gives back the final `)`, so the whole rest of the text must end in
`)` and the group is everything between. -/
def descPatCAt (s : Str) : Option Str :=
  match wsP1 s with
  | some r =>
    match litP ("(".toList) r with
    | some r2 =>
      if 2 ≤ r2.length ∧ r2.getLast? = some ')' then some r2.dropLast else none
    | none => none
  | none => none

/-- `re.search` for the description patterns, returning the text before the
match (`text[:match.start()]`) and the captured group. -/
def scanSplitGo (f : Str → Option Str) : Str → Str → Option (Str × Str)
  | acc, [] =>
    match f [] with
    | some g => some (acc.reverse, g)
    | none => none
  | acc, c :: cs =>
    match f (c :: cs) with
    | some g => some (acc.reverse, g)
    | none => scanSplitGo f (c :: acc) cs

/-- Leftmost match of an at-position matcher. -/
def scanSplit (f : Str → Option Str) (s : Str) : Option (Str × Str) :=
  scanSplitGo f [] s

/-- `PREFIXES[0]`, `^(?:please\s+)?(?:can you\s+)?(?:could you\s+)?` as a
`re.sub` with empty replacement: each optional leading group is dropped in
turn when its literal and the following `\s+` are present. -/
def subP1 (s : Str) : Str :=
  let d (w : Str) (x : Str) : Str :=
    match litPI w x with
    | some r =>
      match wsP1 r with
      | some r2 => r2
      | none => x
    | none => x
  d ("could you".toList) (d ("can you".toList) (d ("please".toList) s))

/-- `PREFIXES[1]`, `^(?:i want to\s+|i need to\s+|i'd like to\s+)?`. -/
def subP2 (s : Str) : Str :=
  let tryA (w : Str) : Option Str :=
    match litPI w s with
    | some r => wsP1 r
    | none => none
  match tryA ("i want to".toList) with
  | some r => r
  | none =>
    match tryA ("i need to".toList) with
    | some r => r
    | none =>
      match tryA ("i".toList ++ [apos] ++ "d like to".toList) with
      | some r => r
      | none => s

/-- `(?:task|todo|item)\s*`, the tail of `PREFIXES[2]`. -/
def objAlt (x : Str) : Option Str :=
  match litPI ("task".toList) x with
  | some r => some (wsP0 r)
  | none =>
    match litPI ("todo".toList) x with
    | some r => some (wsP0 r)
    | none =>
      match litPI ("item".toList) x with
      | some r => some (wsP0 r)
      | none => none

/-- `(?:a\s+)?(?:new\s+)?(?:task|todo|item)\s*` of `PREFIXES[2]`, with the
greedy optionals tried first. -/
def objPart (r : Str) : Option Str :=
  let p2 (x : Str) : Option Str :=
    match
      (match litPI ("new".toList) x with
       | some rn =>
         match wsP1 rn with
         | some rn2 => objAlt rn2
         | none => none
       | none => none) with
    | some g => some g
    | none => objAlt x
  match
    (match litPI ("a".toList) r with
     | some ra =>
       match wsP1 ra with
       | some ra2 => p2 ra2
       | none => none
     | none => none) with
  | some g => some g
  | none => p2 r

/-- `PREFIXES[2]`,
`^(?:add|create|make|new)\s+(?:a\s+)?(?:new\s+)?(?:task|todo|item)\s*`. -/
def subP3 (s : Str) : Str :=
  let tryVerb (w : Str) : Option Str :=
    match litPI w s with
    | some r =>
      match wsP1 r with
      | some r2 => objPart r2
      | none => none
    | none => none
  match tryVerb ("add".toList) with
  | some r => r
  | none =>
    match tryVerb ("create".toList) with
    | some r => r
    | none =>
      match tryVerb ("make".toList) with
      | some r => r
      | none =>
        match tryVerb ("new".toList) with
        | some r => r
        | none => s

/-- `PREFIXES[3]`, `^(?:task|todo)\s*:?\s*`. -/
def subP4 (s : Str) : Str :=
  let f (w : Str) : Option Str :=
    match litPI w s with
    | some r =>
      let r1 := wsP0 r
      let r2 :=
        match r1 with
        | c :: cs => if c = ':' then cs else r1
        | [] => []
      some (wsP0 r2)
    | none => none
  match f ("task".toList) with
  | some r => r
  | none =>
    match f ("todo".toList) with
    | some r => r
    | none => s

/-- `PREFIXES[4]`, `^(?:remind me to\s+|don't forget to\s+|remember to\s+)`. -/
def subP5 (s : Str) : Str :=
  let tryA (w : Str) : Option Str :=
    match litPI w s with
    | some r => wsP1 r
    | none => none
  match tryA ("remind me to".toList) with
  | some r => r
  | none =>
    match tryA ("don".toList ++ [apos] ++ "t forget to".toList) with
    | some r => r
    | none =>
      match tryA ("remember to".toList) with
      | some r => r
      | none => s

/-- `PREFIXES[5]`, `^(?:called|named|titled)\s+`. -/
def subP6 (s : Str) : Str :=
  let tryA (w : Str) : Option Str :=
    match litPI w s with
    | some r => wsP1 r
    | none => none
  match tryA ("called".toList) with
  | some r => r
  | none =>
    match tryA ("named".toList) with
    | some r => r
    | none =>
      match tryA ("titled".toList) with
      | some r => r
      | none => s

/-- The prefix-stripping loop of `execute`: each `re.sub` is applied once in
order, followed by `.strip()`. -/
def stripPrefixes (t : Str) : Str :=
  [subP1, subP2, subP3, subP4, subP5, subP6].foldl (fun x f => pyStrip (f x)) t

/-- The character class `[\s\-:,]` trimmed off both ends by `_clean_title`. -/
def isTitleTrim (c : Char) : Bool :=
  isPySpace c || c = '-' || c = ':' || c = ','

/-- `TaskParserSkill._clean_title`: trim punctuation, strip one layer of
wrapping quotes, capitalise the first character, strip. -/
def cleanTitle (t : Str) : Str :=
  let t1 := ((t.dropWhile isTitleTrim).reverse.dropWhile isTitleTrim).reverse
  let t2 :=
    if 2 ≤ t1.length ∧
        ((t1.head? = some '"' ∧ t1.getLast? = some '"') ∨
          (t1.head? = some apos ∧ t1.getLast? = some apos)) then
      t1.tail.dropLast
    else t1
  let t3 :=
    match t2 with
    | [] => []
    | c :: rest => c.toUpper :: rest
  pyStrip t3

/-- The description-extraction step of `execute`: the three patterns in fixed
priority, first match wins; the matched span is removed and the group becomes
the description. -/
def extractDescription (text0 : Str) : Str × Option Str :=
  match scanSplit descPatAAt text0 with
  | some (before, g) => (pyStrip before, some (pyStrip g))
  | none =>
    match scanSplit descPatBAt text0 with
    | some (before, g) => (pyStrip before, some (pyStrip g))
    | none =>
      match scanSplit descPatCAt text0 with
      | some (before, g) => (pyStrip before, some (pyStrip g))
      | none => (text0, none)

/-- `TaskParserSkill.execute`. -/
def execute (user_input : Str) : ParsedTask :=
  if user_input = [] ∨ pyStrip user_input = [] then
    { title := [], has_title := false }
  else
    let text0 := pyStrip user_input
    let td := extractDescription text0
    let title := cleanTitle (stripPrefixes td.1)
    if title = [] then { title := [], has_title := false }
    else { title := title, description := td.2, has_title := true }

end TaskParserSkill

namespace ErrorHandlerSkill

/-- `error_handler.execute` on a `TaskNotFoundError` raised by the MCP tools
(whose message `Task with ID {id} not found` contains `ID`), then
`format_response`: the specialised message joined with the suggestion from
`ERROR_MESSAGES["TaskNotFoundError"]`. -/
def taskNotFoundResponse : Str :=
  "I couldn".toList ++ [apos] ++ "t find a task with that ID. ".toList ++
    "Would you like me to show you your current tasks?".toList

end ErrorHandlerSkill

namespace MCPTools

/-- The persisted task rows of one user, as the resolution pipeline sees them:
`mcp_server/tools.py` always lists a single user and orders by `created_at`
descending, so the store is modelled as the list of that user's tasks, newest
first.  Cross-user rows (the `UnauthorizedError` path) are outside this model:
no claim touches them. -/
structure Task where
  id : Nat
  title : Str
  description : Option Str := none
  completed : Bool := false
deriving DecidableEq

/-- The task store of the single modelled user, newest first. -/
abbrev Db := List Task

/-- `mcp_server.tools.list_tasks`: status filter over the user's tasks, order
preserved (newest first). -/
def listTasks (db : Db) : FilterMapperSkill.FilterStatus → List Task
  | .pending => db.filter (fun t => !t.completed)
  | .completed => db.filter (fun t => t.completed)
  | .all => db

/-- `_get_task_by_id` within the single-user model: `none` is the
`TaskNotFoundError` path. -/
def findTask (db : Db) (tid : Nat) : Option Task :=
  db.find? (fun t => t.id == tid)

/-- The autoincrement id given to a task inserted by `add_task`. -/
def nextId (db : Db) : Nat := db.foldr (fun t m => max t.id m) 0 + 1

end MCPTools

namespace Agents

open MCPTools

/-- `AgentResult` of `agents/base.py`; the diagnostic fields `data`,
`tool_used` and `error` carry no behaviour and are not modelled. -/
structure AgentResult where
  success : Bool
  message : Str
deriving DecidableEq

/-- Python truthiness of the resolved optional task id (`None` and `0` are
falsy, so a task with id 0 could never be addressed). -/
def optNatFalsy : Option Nat → Bool
  | none => true
  | some n => n == 0

/-- A stored task as the resolver's `TaskReference`. -/
def toRef (t : Task) : IDResolverSkill.TaskReference :=
  ⟨t.id, t.title, t.completed⟩

/-- A stored task as the composer's `TaskInfo` (id and title only, as the
agents build it from the tool outputs). -/
def toInfo (t : Task) : ConfirmationGeneratorSkill.TaskInfo :=
  ⟨t.id, t.title, none, t.completed⟩

/-- `CompletionAgent.COMPLETION_INTENTS`. -/
def COMPLETION_INTENTS : List Str :=
  ["complete", "done", "finish", "finished",
   "check", "mark", "tick", "crossed"].map String.toList

/-- `CompletionAgent.can_handle`: substring membership of any completion
keyword in the lower-cased intent. -/
def completionCanHandle (intent : Str) : Bool :=
  COMPLETION_INTENTS.any (fun i => isSub i (pyLower intent))

/-- `CompletionAgent._resolve_task_id`: resolve over the user's pending
tasks; an empty pending list short-circuits to no resolution. -/
def completionResolveTaskId (db : Db) (userInput : Str) : Option Nat :=
  let pending := listTasks db .pending
  if pending = [] then none
  else (IDResolverSkill.execute userInput (pending.map toRef)).task_id

/-- `CompletionAgent.execute` in the routed path (no explicit `task_id`
kwarg).  An unresolved or falsy id yields the clarifying question; otherwise
`complete_task` runs and the confirmation depends on whether the task was
already completed. -/
def completionExecute (db : Db) (userInput : Str) : AgentResult :=
  let tid := completionResolveTaskId db userInput
  if optNatFalsy tid then
    { success := false,
      message := ("Which task would you like to mark as complete? " ++
        "Please specify the task ID or name.").toList }
  else
    match tid with
    | none =>
      { success := false,
        message := ("Which task would you like to mark as complete? " ++
          "Please specify the task ID or name.").toList }
    | some n =>
      match findTask db n with
      | none => { success := false, message := ErrorHandlerSkill.taskNotFoundResponse }
      | some t =>
        if t.completed then
          { success := true,
            message := ConfirmationGeneratorSkill.execute "already_completed"
              (some (toInfo t)) none none none }
        else
          { success := true,
            message := ConfirmationGeneratorSkill.execute "completed"
              (some (toInfo t)) none none none }

/-- `QueryAgent.QUERY_INTENTS`. -/
def QUERY_INTENTS : List Str :=
  ["list", "show", "display", "get", "view", "see",
   "what", "how many", "count", "tasks", "todos",
   "pending", "completed", "done", "remaining"].map String.toList

/-- `QueryAgent.can_handle`. -/
def queryCanHandle (intent : Str) : Bool :=
  QUERY_INTENTS.any (fun i => isSub i (pyLower intent))

/-- The `filter_applied` string sent back by `list_tasks`. -/
def statusStr : FilterMapperSkill.FilterStatus → String
  | .all => "all"
  | .pending => "pending"
  | .completed => "completed"

/-- `QueryAgent._format_task_list`. -/
def formatTaskList (tasks : List Task) : Str :=
  if tasks = [] then []
  else
    List.intercalate ("\n".toList)
      (tasks.map (fun t =>
        (if t.completed then "[x] ".toList else "[ ] ".toList) ++ t.title ++
          (match t.description with
           | some d => if d.isEmpty then [] else " - ".toList ++ d
           | none => [])))

/-- `QueryAgent.execute` in the routed path (no explicit status kwarg): the
filter comes from the filter mapper over the raw user input, and the summary
is followed by the formatted task list when it is non-empty. -/
def queryExecute (db : Db) (userInput : Str) : AgentResult :=
  let fp := FilterMapperSkill.execute userInput
  let res := listTasks db fp.status
  let infos := res.map (fun t =>
    (⟨t.id, t.title, t.description, t.completed⟩ :
      ConfirmationGeneratorSkill.TaskInfo))
  let message := ConfirmationGeneratorSkill.execute "listed" none (some infos)
    none (some (statusStr fp.status))
  let taskList := formatTaskList res
  { success := true,
    message :=
      if taskList = [] then message
      else message ++ "\n\n".toList ++ taskList }

/-- `CRUDAgent`'s intent keyword lists. -/
def CREATE_INTENTS : List Str := ["add", "create", "new", "make"].map String.toList

/-- `CRUDAgent.UPDATE_INTENTS`. -/
def UPDATE_INTENTS : List Str :=
  ["update", "edit", "change", "modify", "rename"].map String.toList

/-- `CRUDAgent.DELETE_INTENTS`. -/
def DELETE_INTENTS : List Str :=
  ["delete", "remove", "cancel", "drop"].map String.toList

/-- `CRUDAgent.can_handle`. -/
def crudCanHandle (intent : Str) : Bool :=
  (CREATE_INTENTS ++ UPDATE_INTENTS ++ DELETE_INTENTS).any
    (fun i => isSub i (pyLower intent))

/-- `CRUDAgent._resolve_task_id`: an unverified direct regex extraction (the
same pattern as `ID_PATTERNS[0]`, so the first digit run of the raw input)
wins even when no such task exists; otherwise the resolver runs over all of
the user's tasks. -/
def crudResolveTaskId (db : Db) (userInput : Str) : Option Nat :=
  match IDResolverSkill.pat1 userInput with
  | some n => some n
  | none =>
    if db = [] then none
    else (IDResolverSkill.execute userInput (db.map toRef)).task_id

/-- `CRUDAgent._handle_create` in the routed path (title and description
kwargs absent). -/
def handleCreate (db : Db) (userInput : Str) : AgentResult :=
  if userInput ≠ [] then
    let parsed := TaskParserSkill.execute userInput
    if !parsed.has_title then
      { success := false,
        message := "I couldn".toList ++ [apos] ++
          ("t understand the task title. " ++
            "Could you please specify what task you want to add?").toList }
    else if parsed.title = [] then
      { success := false,
        message := "Please provide a title for the task.".toList }
    else
      { success := true,
        message := ConfirmationGeneratorSkill.execute "created"
          (some ⟨nextId db, parsed.title, parsed.description, false⟩)
          none none none }
  else
    { success := false,
      message := "Please provide a title for the task.".toList }

/-- `CRUDAgent._handle_update` in the routed path: all update kwargs are
absent, so a found task reports an empty change list. -/
def handleUpdate (db : Db) (userInput : Str) : AgentResult :=
  let tid := if userInput ≠ [] then crudResolveTaskId db userInput else none
  if optNatFalsy tid then
    { success := false,
      message := ("Which task would you like to update? " ++
        "Please specify the task ID or name.").toList }
  else
    match tid with
    | none =>
      { success := false,
        message := ("Which task would you like to update? " ++
          "Please specify the task ID or name.").toList }
    | some n =>
      match findTask db n with
      | none =>
        { success := false, message := ErrorHandlerSkill.taskNotFoundResponse }
      | some t =>
        { success := true,
          message := ConfirmationGeneratorSkill.execute "updated"
            (some (toInfo t)) none (some []) none }

/-- `CRUDAgent._handle_delete` in the routed path. -/
def handleDelete (db : Db) (userInput : Str) : AgentResult :=
  let tid := if userInput ≠ [] then crudResolveTaskId db userInput else none
  if optNatFalsy tid then
    { success := false,
      message := ("Which task would you like to delete? " ++
        "Please specify the task ID or name.").toList }
  else
    match tid with
    | none =>
      { success := false,
        message := ("Which task would you like to delete? " ++
          "Please specify the task ID or name.").toList }
    | some n =>
      match findTask db n with
      | none =>
        { success := false, message := ErrorHandlerSkill.taskNotFoundResponse }
      | some t =>
        { success := true,
          message := ConfirmationGeneratorSkill.execute "deleted"
            (some (toInfo t)) none none none }

/-- `CRUDAgent.execute`: dispatch on create, update, delete keyword classes in
that order. -/
def crudExecute (db : Db) (intent userInput : Str) : AgentResult :=
  let il := pyLower intent
  if CREATE_INTENTS.any (fun i => isSub i il) then handleCreate db userInput
  else if UPDATE_INTENTS.any (fun i => isSub i il) then handleUpdate db userInput
  else if DELETE_INTENTS.any (fun i => isSub i il) then handleDelete db userInput
  else
    { success := false,
      message := "I".toList ++ [apos] ++
        "m not sure what operation you want to perform.".toList }

/-- `ContextAgent`'s greeting keyword list. -/
def GREETING_INTENTS : List Str :=
  ["hi", "hello", "hey", "greetings", "good morning", "good afternoon",
   "good evening"].map String.toList

/-- `ContextAgent.HELP_INTENTS`. -/
def HELP_INTENTS : List Str :=
  ["help", "what can you do", "how do i", "how to",
   "capabilities"].map String.toList

/-- `ContextAgent.can_handle`: greetings or help only (the
`CONTEXT_INTENTS` list is never consulted there). -/
def contextCanHandle (intent : Str) : Bool :=
  GREETING_INTENTS.any (fun i => isSub i (pyLower intent)) ||
    HELP_INTENTS.any (fun i => isSub i (pyLower intent))

/-- `ContextAgent._handle_help`'s fixed help text. -/
def helpMessage : Str :=
  "I".toList ++ [apos] ++ "m your task management assistant. Here".toList ++
    [apos] ++ "s what I can help you with:\n\n".toList ++
    ("**Adding Tasks**\n- \"Add a task to buy groceries\"\n" ++
      "- \"Create a new task called finish report\"\n" ++
      "- \"Remind me to call mom\"\n\n**Viewing Tasks**\n" ++
      "- \"Show my tasks\"\n- \"What").toList ++ [apos] ++
    ("s left to do?\" (pending tasks)\n- \"Show completed tasks\"\n\n" ++
      "**Completing Tasks**\n- \"Mark task 1 as done\"\n" ++
      "- \"Complete the groceries task\"\n- \"I finished the report\"\n\n" ++
      "**Updating Tasks**\n- \"Update task 1 title to new title\"\n" ++
      "- \"Change the description of task 2\"\n\n**Deleting Tasks**\n" ++
      "- \"Delete task 3\"\n- \"Remove the groceries task\"\n\n" ++
      "Just tell me what you").toList ++ [apos] ++ "d like to do!".toList

/-- `ContextAgent._handle_greeting` (the `list_tasks` call cannot fail in the
model, so the `except` branch is dead). -/
def greetingMessage (db : Db) : Str :=
  let pendingCount := (listTasks db .pending).length
  if pendingCount = 0 then
    "Hello! You".toList ++ [apos] ++
      ("re all caught up - no pending tasks. " ++
        "Would you like to add something new?").toList
  else if pendingCount = 1 then
    ("Hello! You have 1 pending task. " ++
      "Would you like to see it or add more?").toList
  else
    "Hello! You have ".toList ++ natStr pendingCount ++
      " pending tasks. Would you like to see them?".toList

/-- `ContextAgent.execute`: greetings, help requests, then the generic
contextual response; always succeeds. -/
def contextExecute (db : Db) (intent : Str) : AgentResult :=
  let il := pyLower intent
  if GREETING_INTENTS.any (fun i => isSub i il) then
    { success := true, message := greetingMessage db }
  else if HELP_INTENTS.any (fun i => isSub i il) then
    { success := true, message := helpMessage }
  else
    { success := true,
      message := "I".toList ++ [apos] ++
        ("m here to help with your tasks. You can ask me to add, list, " ++
          "complete, update, or delete tasks. What would you like to do?").toList }

end Agents

namespace Orchestrator

open MCPTools Agents

/-- `OrchestrationResult` of `agents/orchestrator.py` (the `tool_calls` field
belongs to the LLM path, outside this model). -/
structure OrchestrationResult where
  response : Str
  agent_used : Option String := none
  success : Bool := true
deriving DecidableEq

/-- One rule-based subagent as the router sees it: its name, its
`can_handle` predicate and its `execute` (taking the lower-cased intent and
the raw user message). -/
structure Agent where
  name : String
  canHandle : Str → Bool
  run : Str → Str → AgentResult

/-- `Orchestrator.__init__`'s `self.agents` priority list: completion, CRUD,
query, context. -/
def orchestratorAgents (db : Db) : List Agent :=
  [⟨"completion_agent", completionCanHandle,
    fun _ um => completionExecute db um⟩,
   ⟨"crud_agent", crudCanHandle, fun ml um => crudExecute db ml um⟩,
   ⟨"query_agent", queryCanHandle, fun _ um => queryExecute db um⟩,
   ⟨"context_agent", contextCanHandle, fun ml _ => contextExecute db ml⟩]

/-- The loop of `_try_rule_based_routing`: agents are probed in priority
order; a matching agent is executed, a success returns immediately, and a
failure moves on to the next agent. -/
def routeGo (ml orig : Str) : List Agent → Option OrchestrationResult
  | [] => none
  | a :: rest =>
    if a.canHandle ml then
      let r := a.run ml orig
      if r.success then some ⟨r.message, some a.name, true⟩
      else routeGo ml orig rest
    else routeGo ml orig rest

/-- `Orchestrator._try_rule_based_routing`; `none` means the router falls
through to the LLM collaborator. -/
def tryRuleBasedRouting (db : Db) (userMessage : Str) :
    Option OrchestrationResult :=
  routeGo (pyStrip (pyLower userMessage)) userMessage (orchestratorAgents db)

/-- The names of the rule-based handlers whose `execute` the routing loop
invokes, in invocation order. -/
def traceGo (ml orig : Str) : List Agent → List String
  | [] => []
  | a :: rest =>
    if a.canHandle ml then
      a.name :: (if (a.run ml orig).success then [] else traceGo ml orig rest)
    else traceGo ml orig rest

/-- Invocation trace of `_try_rule_based_routing`. -/
def routeTrace (db : Db) (userMessage : Str) : List String :=
  traceGo (pyStrip (pyLower userMessage)) userMessage (orchestratorAgents db)

/-- Spec-side description of the invocation trace: among the keyword-matching
agents, every failing one up to and including the first success is invoked. -/
def routeTraceSpec (db : Db) (userMessage : Str) : List String :=
  let ml := pyStrip (pyLower userMessage)
  let ms := (orchestratorAgents db).filter (fun a => a.canHandle ml)
  ((ms.takeWhile (fun a => !(a.run ml userMessage).success)) ++
      (ms.dropWhile (fun a => !(a.run ml userMessage).success)).take 1).map
    (fun a => a.name)

/-- Outcome of `Orchestrator.process`: a rule-based result, or the fall
through to `_process_with_openai` (the LLM collaborator). -/
inductive ProcessOutcome
  | handled (r : OrchestrationResult)
  | llmFallback
deriving DecidableEq

/-- `Orchestrator.process`: empty messages short-circuit, then rule-based
routing, then the LLM. -/
def process (db : Db) (userMessage : Str) : ProcessOutcome :=
  if pyStrip userMessage = [] then
    .handled
      ⟨"I didn".toList ++ [apos] ++
        "t catch that. How can I help you with your tasks?".toList,
        none, true⟩
  else
    match tryRuleBasedRouting db userMessage with
    | some r => .handled r
    | none => .llmFallback

end Orchestrator

/-! ### Shared helper lemmas -/

/-- A list is a prefix of itself followed by anything. -/
theorem isPrefixOf_self_append (p r : Str) : p.isPrefixOf (p ++ r) = true := by
  induction p with
  | nil => cases r <;> rfl
  | cons c cs ih => simp [List.isPrefixOf, ih]

/-- A prefix is a substring. -/
theorem isSub_of_isPrefixOf {n h : Str} (hp : n.isPrefixOf h = true) :
    isSub n h = true := by
  cases h with
  | nil => unfold isSub; simp [hp]
  | cons c cs => unfold isSub; simp [hp]

/-- Any middle segment is a substring. -/
theorem isSub_append_mid (a n c : Str) : isSub n (a ++ (n ++ c)) = true := by
  induction a with
  | nil => exact isSub_of_isPrefixOf (isPrefixOf_self_append n c)
  | cons x xs ih => unfold isSub; simp [ih]

/-- `Char.toLower` fixes whitespace. -/
theorem toLower_of_isPySpace {c : Char} (h : isPySpace c = true) :
    c.toLower = c := by
  simp only [isPySpace, Bool.or_eq_true, beq_iff_eq] at h
  rcases h with ((((h | h) | h) | h) | h) | h <;> subst h <;> decide

/-- `pyLower` fixes all-whitespace strings. -/
theorem pyLower_of_all_space {s : Str} (h : s.all isPySpace = true) :
    pyLower s = s := by
  unfold pyLower
  induction s with
  | nil => rfl
  | cons c cs ih =>
    simp only [List.all_cons, Bool.and_eq_true] at h
    simp [toLower_of_isPySpace h.1, ih h.2]

/-- `pyStrip` erases all-whitespace strings. -/
theorem pyStrip_of_all_space {s : Str} (h : s.all isPySpace = true) :
    pyStrip s = [] := by
  unfold pyStrip
  have hd : s.dropWhile isPySpace = [] :=
    List.dropWhile_eq_nil_iff.mpr (fun x hx => (List.all_eq_true.mp h) x hx)
  simp [hd]

/-! ### Resolver stepping and soundness lemmas -/

namespace IDResolverSkill

/-- `execute` with the initial falsy-guard discharged. -/
theorem execute_unfold (input : Str) (tasks : List TaskReference)
    (hin : input ≠ []) (hts : tasks ≠ []) :
    execute input tasks =
      (let text := pyStrip (pyLower input)
       let r1 := tryDirectId text tasks
       if r1.task_id.isSome then r1
       else
         let r2 := tryOrdinal text tasks
         if r2.task_id.isSome then r2
         else
           let r3 := tryTitleMatch text tasks
           if r3.task_id.isSome then r3 else {}) := by
  unfold execute
  rw [if_neg (by simp [hin, hts])]

/-- Whatever id the direct-id loop returns carries the id of a candidate. -/
theorem directIdGo_sound (tasks : List TaskReference)
    (pats : List (Option Nat)) (i : Nat)
    (h : (directIdGo tasks pats).task_id = some i) : ∃ t ∈ tasks, t.id = i := by
  induction pats with
  | nil => simp [directIdGo] at h
  | cons p rest ih =>
    match p with
    | none => exact ih (by simpa [directIdGo] using h)
    | some n =>
      rw [directIdGo] at h
      cases hf : tasks.find? (fun t => t.id == n) with
      | none => rw [hf] at h; exact ih h
      | some t =>
        rw [hf] at h
        simp only [Option.some.injEq] at h
        refine ⟨t, List.mem_of_find?_eq_some hf, ?_⟩
        have := List.find?_some hf
        simp only [beq_iff_eq] at this
        omega

/-- A task produced by the ordinal indexing step is a candidate. -/
theorem taskAt_mem {tasks : List TaskReference} {idx : Int}
    {t : TaskReference} (h : taskAt tasks idx = some t) : t ∈ tasks := by
  unfold taskAt at h
  split at h
  · exact List.getElem?_mem h
  · exact List.getElem?_mem h

/-- Whatever the ordinal loop returns carries the id of a candidate. -/
theorem ordinalGo_sound (text : Str) (tasks : List TaskReference)
    (ords : List (Str × Int)) (i : Nat)
    (h : (ordinalGo text tasks ords).task_id = some i) :
    ∃ t ∈ tasks, t.id = i := by
  induction ords with
  | nil => simp [ordinalGo] at h
  | cons p rest ih =>
    match p with
    | (kw, idx) =>
      rw [ordinalGo] at h
      by_cases hsub : isSub kw text = true
      · rw [if_pos hsub] at h
        cases ha : taskAt tasks idx with
        | none => rw [ha] at h; exact ih h
        | some t =>
          rw [ha] at h
          simp only [Option.some.injEq] at h
          exact ⟨t, taskAt_mem ha, h⟩
      · rw [if_neg hsub] at h; exact ih h

/-- The best match carried through the title loop is a processed candidate or
the inherited one. -/
theorem titleGo_fst (text : Str) (l : List TaskReference)
    (b : Option TaskReference) (s : Rat) (t : TaskReference)
    (h : (titleGo text l (b, s)).1 = some t) : t ∈ l ∨ b = some t := by
  induction l generalizing b s with
  | nil => exact Or.inr (by simpa [titleGo] using h)
  | cons u rest ih =>
    rw [titleGo] at h
    by_cases hc : s < titleScore text u ∧ mkRat 1 2 ≤ titleScore text u
    · rw [if_pos hc] at h
      rcases ih _ _ h with hm | hb
      · exact Or.inl (List.mem_cons_of_mem u hm)
      · simp only [Option.some.injEq] at hb
        exact Or.inl (hb ▸ List.mem_cons_self u rest)
    · rw [if_neg hc] at h
      rcases ih _ _ h with hm | hb
      · exact Or.inl (List.mem_cons_of_mem u hm)
      · exact Or.inr hb

/-- Whatever the title matcher returns carries the id of a candidate. -/
theorem tryTitleMatch_sound (text : Str) (tasks : List TaskReference) (i : Nat)
    (h : (tryTitleMatch text tasks).task_id = some i) :
    ∃ t ∈ tasks, t.id = i := by
  unfold tryTitleMatch at h
  rcases htg : titleGo text tasks (none, mkRat 0 1) with ⟨b, s⟩
  rw [htg] at h
  cases b with
  | none => simp at h
  | some t =>
    simp only [Option.some.injEq] at h
    rcases titleGo_fst text tasks none (mkRat 0 1) t (by rw [htg]) with hm | hb
    · exact ⟨t, hm, h⟩
    · cases hb

/-- A title match with no result is exactly the empty `ResolvedTask`. -/
theorem tryTitleMatch_none (text : Str) (tasks : List TaskReference)
    (h : (tryTitleMatch text tasks).task_id = none) :
    tryTitleMatch text tasks = {} := by
  unfold tryTitleMatch at h ⊢
  rcases htg : titleGo text tasks (none, mkRat 0 1) with ⟨b, s⟩
  rw [htg] at h
  cases b with
  | none => rfl
  | some t => simp at h

end IDResolverSkill

/-! ### C2: exact-id resolution and earlier non-matching numbers -/

/-- C2 counterexample: in `"99 5"` the bare number `5` matches candidate id 5,
yet resolution returns no match at all: each ID pattern considers only its
first match (`re.search`), and the first number `99` matches no candidate. -/
theorem C2_earlier_number_counterexample :
    pySplit ("99 5".toList) = ["99".toList, "5".toList] ∧
    IDResolverSkill.execute ("99 5".toList) [⟨5, "alpha".toList, false⟩] =
      { task_id := none, confidence := mkRat 0 1, matched_title := none,
        resolution_method := "none" } := by decide

/-- C2 amended: when the first number of the normalised text (the capture of
the first match of `ID_PATTERNS[0]`, i.e. the leftmost maximal digit run)
equals some candidate's id, resolution returns that id with method `exact_id`
and confidence 1.0, regardless of other words present. -/
theorem C2_first_number_exact_id (input : Str)
    (tasks : List IDResolverSkill.TaskReference) (n : Nat)
    (h1 : IDResolverSkill.pat1 (pyStrip (pyLower input)) = some n)
    (h2 : ∃ t ∈ tasks, t.id = n) :
    (IDResolverSkill.execute input tasks).resolution_method = "exact_id" ∧
    (IDResolverSkill.execute input tasks).task_id = some n ∧
    (IDResolverSkill.execute input tasks).confidence = mkRat 1 1 := by
  have hin : input ≠ [] := by
    intro he
    subst he
    simp [IDResolverSkill.pat1, IDResolverSkill.firstDigitRun, pyLower,
      pyStrip] at h1
  have hts : tasks ≠ [] := by
    rcases h2 with ⟨t, ht, _⟩
    exact List.ne_nil_of_mem ht
  have hfind : (tasks.find? (fun t => t.id == n)).isSome = true := by
    rcases h2 with ⟨t, ht, hid⟩
    exact List.find?_isSome.mpr ⟨t, ht, by simp [hid]⟩
  obtain ⟨t0, hf⟩ := Option.isSome_iff_exists.mp hfind
  have key : IDResolverSkill.tryDirectId (pyStrip (pyLower input)) tasks =
      { task_id := some n, confidence := mkRat 1 1,
        matched_title := some t0.title, resolution_method := "exact_id" } := by
    unfold IDResolverSkill.tryDirectId
    rw [h1, IDResolverSkill.directIdGo, hf]
  rw [IDResolverSkill.execute_unfold input tasks hin hts]
  simp [key]

/-- C2 witness input. -/
theorem C2_first_number_exact_id_witness :
    (IDResolverSkill.execute ("task 7".toList)
      [⟨7, "pay bills".toList, false⟩]).resolution_method = "exact_id" ∧
    (IDResolverSkill.execute ("task 7".toList)
      [⟨7, "pay bills".toList, false⟩]).task_id = some 7 ∧
    (IDResolverSkill.execute ("task 7".toList)
      [⟨7, "pay bills".toList, false⟩]).confidence = mkRat 1 1 :=
  C2_first_number_exact_id ("task 7".toList) [⟨7, "pay bills".toList, false⟩]
    7 (by decide) ⟨⟨7, "pay bills".toList, false⟩, by decide, rfl⟩

/-! ### C5: the resolver never fabricates an id -/

/-- C5: every resolution whose method is not `none` returns the id of some
task in the supplied candidate list. -/
theorem C5_no_fabricated_ids (input : Str)
    (tasks : List IDResolverSkill.TaskReference)
    (h : (IDResolverSkill.execute input tasks).resolution_method ≠ "none") :
    ∃ t ∈ tasks, (IDResolverSkill.execute input tasks).task_id = some t.id := by
  by_cases hguard : input = [] ∨ tasks = []
  · exfalso
    apply h
    unfold IDResolverSkill.execute
    rw [if_pos hguard]
  · push_neg at hguard
    rw [IDResolverSkill.execute_unfold input tasks hguard.1 hguard.2] at h ⊢
    simp only at h ⊢
    cases h1 : (IDResolverSkill.tryDirectId (pyStrip (pyLower input))
        tasks).task_id with
    | some i =>
      rcases IDResolverSkill.directIdGo_sound tasks _ i h1 with ⟨t, ht, hid⟩
      refine ⟨t, ht, ?_⟩
      simp [h1, hid]
    | none =>
      simp only [h1, Option.isSome_none, Bool.false_eq_true, if_false]
      simp only [h1, Option.isSome_none, Bool.false_eq_true, if_false] at h
      cases h2 : (IDResolverSkill.tryOrdinal (pyStrip (pyLower input))
          tasks).task_id with
      | some i =>
        rcases IDResolverSkill.ordinalGo_sound _ tasks _ i h2 with ⟨t, ht, hid⟩
        refine ⟨t, ht, ?_⟩
        simp [h2, hid]
      | none =>
        simp only [h2, Option.isSome_none, Bool.false_eq_true, if_false]
        simp only [h2, Option.isSome_none, Bool.false_eq_true, if_false] at h
        cases h3 : (IDResolverSkill.tryTitleMatch (pyStrip (pyLower input))
            tasks).task_id with
        | some i =>
          rcases IDResolverSkill.tryTitleMatch_sound _ tasks i h3 with
            ⟨t, ht, hid⟩
          refine ⟨t, ht, ?_⟩
          have hsome : (IDResolverSkill.tryTitleMatch (pyStrip (pyLower input))
              tasks).task_id.isSome = true := by simp [h3]
          simp [hsome, h3, hid]
        | none =>
          exfalso
          apply h
          simp [h3]

/-- C5 witness input. -/
theorem C5_no_fabricated_ids_witness :
    ∃ t ∈ [(⟨2, "buy milk".toList, false⟩ : IDResolverSkill.TaskReference)],
      (IDResolverSkill.execute ("task 2".toList)
        [⟨2, "buy milk".toList, false⟩]).task_id = some t.id :=
  C5_no_fabricated_ids ("task 2".toList) [⟨2, "buy milk".toList, false⟩]
    (by decide)

/-! ### C7: title-match threshold and tie-breaking -/

/-- Full characterisation of the title-match loop: either nothing beat the
inherited best and every processed score was rejected, or the loop settled on
the first candidate of the best score, with everything before it strictly
below and everything after it rejected against it. -/
theorem titleGo_char (text : Str) (l : List IDResolverSkill.TaskReference)
    (b : Option IDResolverSkill.TaskReference) (s : Rat) :
    (IDResolverSkill.titleGo text l (b, s) = (b, s) ∧
      ∀ u ∈ l, IDResolverSkill.titleScore text u ≤ s ∨
        IDResolverSkill.titleScore text u < mkRat 1 2) ∨
    (∃ l1 t l2, l = l1 ++ t :: l2 ∧
      IDResolverSkill.titleGo text l (b, s) =
        (some t, IDResolverSkill.titleScore text t) ∧
      s < IDResolverSkill.titleScore text t ∧
      mkRat 1 2 ≤ IDResolverSkill.titleScore text t ∧
      (∀ u ∈ l1, IDResolverSkill.titleScore text u <
        IDResolverSkill.titleScore text t) ∧
      (∀ u ∈ l2, IDResolverSkill.titleScore text u ≤
          IDResolverSkill.titleScore text t ∨
        IDResolverSkill.titleScore text u < mkRat 1 2)) := by
  induction l generalizing b s with
  | nil => exact Or.inl ⟨rfl, by simp⟩
  | cons u rest ih =>
    rw [IDResolverSkill.titleGo]
    by_cases hc : s < IDResolverSkill.titleScore text u ∧
        mkRat 1 2 ≤ IDResolverSkill.titleScore text u
    · rw [if_pos hc]
      rcases ih (some u) (IDResolverSkill.titleScore text u) with
        ⟨heq, hall⟩ | ⟨l1, t', l2, hl, heq, hlt, hhalf, hl1, hl2⟩
      · exact Or.inr ⟨[], u, rest, rfl, heq, hc.1, hc.2, by simp, hall⟩
      · refine Or.inr ⟨u :: l1, t', l2, by rw [hl]; rfl, heq,
          lt_trans hc.1 hlt, hhalf, ?_, hl2⟩
        intro v hv
        rcases List.mem_cons.mp hv with hvu | hvl
        · exact hvu ▸ hlt
        · exact hl1 v hvl
    · rw [if_neg hc]
      have hrej : IDResolverSkill.titleScore text u ≤ s ∨
          IDResolverSkill.titleScore text u < mkRat 1 2 := by
        rcases not_and_or.mp hc with hna | hnb
        · exact Or.inl (le_of_not_lt hna)
        · exact Or.inr (not_le.mp hnb)
      rcases ih b s with ⟨heq, hall⟩ |
        ⟨l1, t', l2, hl, heq, hlt, hhalf, hl1, hl2⟩
      · refine Or.inl ⟨heq, ?_⟩
        intro v hv
        rcases List.mem_cons.mp hv with hvu | hvl
        · exact hvu ▸ hrej
        · exact hall v hvl
      · refine Or.inr ⟨u :: l1, t', l2, by rw [hl]; rfl, heq, hlt, hhalf,
          ?_, hl2⟩
        intro v hv
        rcases List.mem_cons.mp hv with hvu | hvl
        · subst hvu
          rcases hrej with hle | hlow
          · exact lt_of_le_of_lt hle hlt
          · exact lt_of_lt_of_le hlow hhalf
        · exact hl1 v hvl

/-- C7: a returned title match always scores at least the 0.5 threshold, its
confidence is exactly the similarity score of the chosen candidate, every
earlier candidate scores strictly below it (so ties keep the
earliest-indexed candidate) and no candidate scores above it. -/
theorem C7_title_threshold_and_ties (text : Str)
    (tasks : List IDResolverSkill.TaskReference)
    (h : (IDResolverSkill.tryTitleMatch text tasks).task_id.isSome = true) :
    mkRat 1 2 ≤ (IDResolverSkill.tryTitleMatch text tasks).confidence ∧
    ∃ l1 t l2, tasks = l1 ++ t :: l2 ∧
      (IDResolverSkill.tryTitleMatch text tasks).task_id = some t.id ∧
      (IDResolverSkill.tryTitleMatch text tasks).confidence =
        IDResolverSkill.titleScore text t ∧
      (∀ u ∈ l1, IDResolverSkill.titleScore text u <
        IDResolverSkill.titleScore text t) ∧
      ∀ u ∈ tasks, IDResolverSkill.titleScore text u ≤
        IDResolverSkill.titleScore text t := by
  rcases titleGo_char text tasks none (mkRat 0 1) with
    ⟨heq, _⟩ | ⟨l1, t, l2, hl, heq, _, hhalf, hl1, hl2⟩
  · exfalso
    unfold IDResolverSkill.tryTitleMatch at h
    rw [heq] at h
    simp at h
  · have hres : IDResolverSkill.tryTitleMatch text tasks =
        { task_id := some t.id,
          confidence := IDResolverSkill.titleScore text t,
          matched_title := some t.title,
          resolution_method := "title_match" } := by
      unfold IDResolverSkill.tryTitleMatch
      rw [heq]
    rw [hres]
    refine ⟨hhalf, l1, t, l2, hl, rfl, rfl, hl1, ?_⟩
    intro v hv
    rw [hl] at hv
    rcases List.mem_append.mp hv with hv1 | hv2
    · exact le_of_lt (hl1 v hv1)
    · rcases List.mem_cons.mp hv2 with hvt | hvl2
      · exact le_of_eq (by rw [hvt])
      · rcases hl2 v hvl2 with hle | hlow
        · exact hle
        · exact le_of_lt (lt_of_lt_of_le hlow hhalf)

/-- C7 witness input. -/
theorem C7_title_threshold_witness :
    mkRat 1 2 ≤ (IDResolverSkill.tryTitleMatch ("buy milk".toList)
      [⟨1, "Buy milk".toList, false⟩]).confidence ∧
    ∃ l1 t l2,
      [(⟨1, "Buy milk".toList, false⟩ : IDResolverSkill.TaskReference)] =
        l1 ++ t :: l2 ∧
      (IDResolverSkill.tryTitleMatch ("buy milk".toList)
        [⟨1, "Buy milk".toList, false⟩]).task_id = some t.id ∧
      (IDResolverSkill.tryTitleMatch ("buy milk".toList)
        [⟨1, "Buy milk".toList, false⟩]).confidence =
        IDResolverSkill.titleScore ("buy milk".toList) t ∧
      (∀ u ∈ l1, IDResolverSkill.titleScore ("buy milk".toList) u <
        IDResolverSkill.titleScore ("buy milk".toList) t) ∧
      ∀ u ∈ [(⟨1, "Buy milk".toList, false⟩ :
          IDResolverSkill.TaskReference)],
        IDResolverSkill.titleScore ("buy milk".toList) u ≤
          IDResolverSkill.titleScore ("buy milk".toList) t :=
  C7_title_threshold_and_ties ("buy milk".toList)
    [⟨1, "Buy milk".toList, false⟩] (by decide)

/-! ### C8: out-of-range ordinals are skipped, not errors -/

/-- C8 counterexample: `"fifth last"` over two candidates contains the
out-of-range ordinal `fifth` (index 4), yet resolution does not proceed to
title matching as if no ordinal were present (title matching would find
nothing); the later ordinal keyword `last` fires and returns the ordinal
match on `candidates[0]`. -/
theorem C8_continue_scan_counterexample :
    ("fifth".toList, (4 : Int)) ∈ IDResolverSkill.ORDINALS ∧
    isSub ("fifth".toList) ("fifth last".toList) = true ∧
    IDResolverSkill.taskAt
      [⟨1, "alpha".toList, false⟩, ⟨2, "beta".toList, false⟩] 4 = none ∧
    IDResolverSkill.tryTitleMatch ("fifth last".toList)
      [⟨1, "alpha".toList, false⟩, ⟨2, "beta".toList, false⟩] = {} ∧
    IDResolverSkill.execute ("fifth last".toList)
      [⟨1, "alpha".toList, false⟩, ⟨2, "beta".toList, false⟩] =
      { task_id := some 1, confidence := mkRat 9 10,
        matched_title := some ("alpha".toList),
        resolution_method := "ordinal" } := by decide

/-- The ordinal loop finds nothing when every keyword present is out of
range. -/
theorem ordinalGo_all_out_of_range (text : Str)
    (tasks : List IDResolverSkill.TaskReference) (ords : List (Str × Int))
    (h : ∀ p ∈ ords, isSub p.1 text = true →
      IDResolverSkill.taskAt tasks p.2 = none) :
    IDResolverSkill.ordinalGo text tasks ords = {} := by
  induction ords with
  | nil => rfl
  | cons p rest ih =>
    match p with
    | (kw, idx) =>
      rw [IDResolverSkill.ordinalGo]
      by_cases hsub : isSub kw text = true
      · rw [if_pos hsub, h (kw, idx) (List.mem_cons_self _ _) hsub]
        exact ih (fun q hq hqs => h q (List.mem_cons_of_mem _ hq) hqs)
      · rw [if_neg hsub]
        exact ih (fun q hq hqs => h q (List.mem_cons_of_mem _ hq) hqs)

/-- When the only in-range ordinal keywords present are of the `-1` family
(last/latest/newest/most recent), the ordinal loop returns `candidates[0]`. -/
theorem ordinalGo_last_family (text : Str) (t : IDResolverSkill.TaskReference)
    (rest : List IDResolverSkill.TaskReference) (ords : List (Str × Int))
    (h1 : ∀ p ∈ ords, isSub p.1 text = true →
      p.2 = -1 ∨ IDResolverSkill.taskAt (t :: rest) p.2 = none)
    (h2 : ∃ p ∈ ords, isSub p.1 text = true ∧ p.2 = -1) :
    IDResolverSkill.ordinalGo text (t :: rest) ords =
      { task_id := some t.id, confidence := mkRat 9 10,
        matched_title := some t.title, resolution_method := "ordinal" } := by
  induction ords with
  | nil => simp at h2
  | cons p os ih =>
    match p with
    | (kw, idx) =>
      rw [IDResolverSkill.ordinalGo]
      by_cases hsub : isSub kw text = true
      · rw [if_pos hsub]
        rcases h1 (kw, idx) (List.mem_cons_self _ _) hsub with hidx | hnone
        · simp only at hidx
          subst hidx
          simp [IDResolverSkill.taskAt]
        · rw [hnone]
          apply ih
          · exact fun q hq hqs => h1 q (List.mem_cons_of_mem _ hq) hqs
          · rcases h2 with ⟨q, hq, hqs, hq1⟩
            rcases List.mem_cons.mp hq with hqh | hqo
            · exfalso
              subst hqh
              simp only at hq1
              subst hq1
              simp [IDResolverSkill.taskAt] at hnone
            · exact ⟨q, hqo, hqs, hq1⟩
      · rw [if_neg hsub]
        apply ih
        · exact fun q hq hqs => h1 q (List.mem_cons_of_mem _ hq) hqs
        · rcases h2 with ⟨q, hq, hqs, hq1⟩
          rcases List.mem_cons.mp hq with hqh | hqo
          · exfalso
            subst hqh
            rw [hqs] at hsub
            exact hsub rfl
          · exact ⟨q, hqo, hqs, hq1⟩

/-- C8 amended: an out-of-range ordinal keyword is caught, never an error,
and never produces the match; the scan continues with the remaining ordinal
keywords in dictionary order.  First conjunct: when every ordinal keyword in
the text is out of range (and direct id found nothing), resolution is exactly
title matching.  Second conjunct: when the in-range ordinal keywords present
are exactly the last/latest/newest/most-recent family, the ordinal step
returns `candidates[0]`. -/
theorem C8_out_of_range_ordinals :
    (∀ input tasks, input ≠ [] → tasks ≠ [] →
      (IDResolverSkill.tryDirectId (pyStrip (pyLower input)) tasks).task_id =
        none →
      (∀ p ∈ IDResolverSkill.ORDINALS,
        isSub p.1 (pyStrip (pyLower input)) = true →
        IDResolverSkill.taskAt tasks p.2 = none) →
      IDResolverSkill.execute input tasks =
        IDResolverSkill.tryTitleMatch (pyStrip (pyLower input)) tasks) ∧
    (∀ text t rest,
      (∀ p ∈ IDResolverSkill.ORDINALS, isSub p.1 text = true →
        p.2 = -1 ∨ IDResolverSkill.taskAt (t :: rest) p.2 = none) →
      (∃ p ∈ IDResolverSkill.ORDINALS, isSub p.1 text = true ∧ p.2 = -1) →
      IDResolverSkill.tryOrdinal text (t :: rest) =
        { task_id := some t.id, confidence := mkRat 9 10,
          matched_title := some t.title, resolution_method := "ordinal" }) := by
  constructor
  · intro input tasks hin hts hdirect hords
    rw [IDResolverSkill.execute_unfold input tasks hin hts]
    simp only [hdirect, Option.isSome_none, Bool.false_eq_true, if_false]
    have hord : IDResolverSkill.tryOrdinal (pyStrip (pyLower input)) tasks =
        {} := ordinalGo_all_out_of_range _ tasks _ hords
    simp only [hord]
    cases h3 : (IDResolverSkill.tryTitleMatch (pyStrip (pyLower input))
        tasks).task_id with
    | some i => simp [h3]
    | none =>
      rw [IDResolverSkill.tryTitleMatch_none _ _ h3]
      simp
  · intro text t rest h1 h2
    exact ordinalGo_last_family text t rest IDResolverSkill.ORDINALS h1 h2

/-- C3 counterexample: the whitespace-only input `" "` is not falsy in
Python, so it reaches the keyword scan and returns the low-confidence 0.7
default, not the claimed confidence 1.0. -/
theorem C3_whitespace_counterexample :
    (" ".toList ≠ ([] : Str)) ∧
    (" ".toList).all isPySpace = true ∧
    FilterMapperSkill.execute (" ".toList) =
      { status := .all, confidence := mkRat 7 10 } ∧
    mkRat 7 10 ≠ mkRat 1 1 := by decide

/-- C3 amended: only the empty string takes the confidence-1.0 default; every
whitespace-only non-empty input returns status `all` with confidence 0.7,
the same pair as a non-empty input matching no keyword class (such as
`"show me stuff"`). -/
theorem C3_empty_vs_whitespace :
    FilterMapperSkill.execute [] =
      { status := .all, confidence := mkRat 1 1 } ∧
    (∀ s : Str, s ≠ [] → s.all isPySpace = true →
      FilterMapperSkill.execute s =
        { status := .all, confidence := mkRat 7 10 }) ∧
    FilterMapperSkill.execute ("show me stuff".toList) =
      { status := .all, confidence := mkRat 7 10 } := by
  refine ⟨by decide, ?_, by decide⟩
  intro s hne hws
  unfold FilterMapperSkill.execute
  rw [if_neg hne]
  rw [pyLower_of_all_space hws, pyStrip_of_all_space hws]
  decide

/-! ### C4: the "updated" confirmation messages -/

/-- C4 counterexample: invoking the composer with action `updated`, an empty
change list and no task yields the generic `Task updated successfully.`,
which does not contain the substring `No changes`. -/
theorem C4_no_task_counterexample :
    ConfirmationGeneratorSkill.execute "updated" none none (some []) none =
      "Task updated successfully.".toList ∧
    isSub ("No changes".toList)
      (ConfirmationGeneratorSkill.execute "updated" none none (some []) none) =
      false := by decide

/-- C4 amended: when a task is supplied, an empty (or absent) change list
yields a message containing `No changes`, and the change list
`["title", "description", "status"]` yields a message containing the
Oxford-comma rendering `title, description, and status`. -/
theorem C4_updated_messages (t : ConfirmationGeneratorSkill.TaskInfo) :
    (∀ changes : Option (List Str),
      ConfirmationGeneratorSkill.optListFalsy changes = true →
      isSub ("No changes".toList)
        (ConfirmationGeneratorSkill.execute "updated" (some t) none changes
          none) = true) ∧
    isSub ("title, description, and status".toList)
      (ConfirmationGeneratorSkill.execute "updated" (some t) none
        (some (["title", "description", "status"].map String.toList)) none) =
      true := by
  have hdispatch : ∀ task changes,
      ConfirmationGeneratorSkill.execute "updated" task none changes none =
      ConfirmationGeneratorSkill.confirmUpdated task changes := by
    intro task changes; rfl
  constructor
  · intro changes hfalsy
    rw [hdispatch]
    simp only [ConfirmationGeneratorSkill.confirmUpdated, hfalsy, if_true]
    exact isSub_of_isPrefixOf (isPrefixOf_self_append ("No changes".toList) _)
  · rw [hdispatch]
    simp only [ConfirmationGeneratorSkill.confirmUpdated]
    rw [if_neg (by decide)]
    have hfc :
        ConfirmationGeneratorSkill.formatChanges
          ((some (["title", "description", "status"].map String.toList)).getD
            []) = "title, description, and status".toList := by decide
    rw [hfc]
    have hshape :
        "I".toList ++ [apos] ++ "ve updated the ".toList ++
            "title, description, and status".toList ++ " for ".toList ++
            quoted t.title ++ ".".toList =
          ("I".toList ++ [apos] ++ "ve updated the ".toList) ++
            ("title, description, and status".toList ++
              (" for ".toList ++ quoted t.title ++ ".".toList)) := by
      simp [List.append_assoc]
    rw [hshape]
    exact isSub_append_mid _ _ _

/-! ### C6: completion routes before query -/

/-- C6: whenever a message carries a completion-intent keyword, the first
rule-based handler the router invokes is the completion handler (so it is
dispatched before the query handler even when query keywords such as `done`
are also present), and the router's fixed priority list is completion, then
create/update/delete, then query, then context/help. -/
theorem C6_completion_before_query (db : MCPTools.Db) (msg : Str)
    (h : Agents.completionCanHandle (pyStrip (pyLower msg)) = true) :
    (Orchestrator.routeTrace db msg).head? = some "completion_agent" ∧
    (Orchestrator.orchestratorAgents db).map (fun a => a.name) =
      ["completion_agent", "crud_agent", "query_agent", "context_agent"] := by
  constructor
  · simp [Orchestrator.routeTrace, Orchestrator.orchestratorAgents,
      Orchestrator.traceGo, h]
  · rfl

/-- C6 witness input, the spec's own scenario. -/
theorem C6_completion_before_query_witness :
    (Orchestrator.routeTrace [] ("mark task 3 as done".toList)).head? =
      some "completion_agent" ∧
    (Orchestrator.orchestratorAgents []).map (fun a => a.name) =
      ["completion_agent", "crud_agent", "query_agent", "context_agent"] :=
  C6_completion_before_query [] ("mark task 3 as done".toList) (by decide)

/-! ### C1: what the router does when a matching handler fails -/

/-- C1 counterexample: on `"mark as done show my tasks"` with an empty task
store, the completion handler matches first and fails (no task reference
resolves), yet the router then invokes the query handler (another rule-based
handler) and returns its result instead of falling through to the LLM
collaborator. -/
theorem C1_handler_failure_counterexample :
    Orchestrator.routeTrace [] ("mark as done show my tasks".toList) =
      ["completion_agent", "query_agent"] ∧
    (Agents.completionExecute [] ("mark as done show my tasks".toList)).success =
      false ∧
    Orchestrator.tryRuleBasedRouting [] ("mark as done show my tasks".toList) =
      some ⟨"You haven".toList ++ [apos] ++ "t completed any tasks yet.".toList,
        some "query_agent", true⟩ ∧
    Orchestrator.process [] ("mark as done show my tasks".toList) ≠
      Orchestrator.ProcessOutcome.llmFallback := by decide

/-- The routing loop returns nothing exactly when every keyword-matching
agent's execution fails. -/
theorem routeGo_none_iff (ml orig : Str)
    (agents : List Orchestrator.Agent) :
    Orchestrator.routeGo ml orig agents = none ↔
      ∀ a ∈ agents, a.canHandle ml = true → (a.run ml orig).success = false := by
  induction agents with
  | nil => simp [Orchestrator.routeGo]
  | cons a rest ih =>
    rw [Orchestrator.routeGo]
    by_cases hc : a.canHandle ml = true
    · rw [if_pos hc]
      by_cases hs : (a.run ml orig).success = true
      · rw [if_pos hs]
        simp only [List.forall_mem_cons]
        constructor
        · intro habs; cases habs
        · intro ⟨hhead, _⟩
          rw [hhead hc] at hs
          cases hs
      · have hs' : (a.run ml orig).success = false := by
          cases hsv : (a.run ml orig).success
          · rfl
          · exact absurd hsv hs
        rw [if_neg hs]
        simp [List.forall_mem_cons, hs', ih]
    · rw [if_neg hc]
      simp [List.forall_mem_cons, hc, ih]

/-- The invocation trace is exactly: among the keyword-matching agents, the
failing prefix followed by the first success, when any. -/
theorem traceGo_eq_spec (ml orig : Str) (agents : List Orchestrator.Agent) :
    Orchestrator.traceGo ml orig agents =
      (((agents.filter (fun a => a.canHandle ml)).takeWhile
          (fun a => !(a.run ml orig).success)) ++
        ((agents.filter (fun a => a.canHandle ml)).dropWhile
          (fun a => !(a.run ml orig).success)).take 1).map
        (fun a => a.name) := by
  induction agents with
  | nil => rfl
  | cons a rest ih =>
    rw [Orchestrator.traceGo]
    by_cases hc : a.canHandle ml = true
    · rw [if_pos hc]
      rw [List.filter_cons_of_pos (by simpa using hc)]
      by_cases hs : (a.run ml orig).success = true
      · rw [if_pos hs]
        rw [List.takeWhile_cons, List.dropWhile_cons]
        simp [hs]
      · have hs' : (a.run ml orig).success = false := by
          cases hsv : (a.run ml orig).success
          · rfl
          · exact absurd hsv hs
        rw [if_neg hs]
        rw [List.takeWhile_cons, List.dropWhile_cons]
        simp only [hs', Bool.not_false, if_true, List.cons_append,
          List.map_cons, List.cons.injEq, true_and]
        exact ih
    · rw [if_neg hc]
      rw [List.filter_cons_of_neg (by simpa using hc)]
      exact ih

/-- C1 amended: when the matching handler reports failure the router does not
fall through to the LLM at once; it continues with the lower-priority
keyword-matching handlers, invoking the failing prefix and then the first
success, and falls through to the LLM collaborator exactly when every
keyword-matching handler fails. -/
theorem C1_failure_continues_routing (db : MCPTools.Db) (msg : Str) :
    (Orchestrator.tryRuleBasedRouting db msg = none ↔
      ∀ a ∈ Orchestrator.orchestratorAgents db,
        a.canHandle (pyStrip (pyLower msg)) = true →
        (a.run (pyStrip (pyLower msg)) msg).success = false) ∧
    Orchestrator.routeTrace db msg = Orchestrator.routeTraceSpec db msg :=
  ⟨routeGo_none_iff (pyStrip (pyLower msg)) msg (Orchestrator.orchestratorAgents db),
    traceGo_eq_spec (pyStrip (pyLower msg)) msg (Orchestrator.orchestratorAgents db)⟩

/-! ### C9: history truncation in the context builder -/

/-- C9: the truncated history is a suffix of the supplied history (oldest
entries dropped first, order preserved), its length is the minimum of the
history length and the fixed cap 20, and a history within the cap is returned
whole. -/
theorem C9_truncate_history (h : List ContextBuilderSkill.MessageContext) :
    ContextBuilderSkill.truncateHistory h <:+ h ∧
    (ContextBuilderSkill.truncateHistory h).length =
      min h.length ContextBuilderSkill.MAX_HISTORY_MESSAGES ∧
    (h.length ≤ ContextBuilderSkill.MAX_HISTORY_MESSAGES →
      ContextBuilderSkill.truncateHistory h = h) := by
  unfold ContextBuilderSkill.truncateHistory
  split
  case isTrue hle =>
    exact ⟨List.suffix_refl h, by omega, fun _ => rfl⟩
  case isFalse hgt =>
    refine ⟨List.drop_suffix _ _, ?_, fun hle => absurd hle hgt⟩
    rw [List.length_drop]
    omega

/-! ### C10: the parsed-task invariant of the title extractor -/

/-- C10: for every input, `has_title` holds exactly when the returned title is
non-empty, and a draft without a title never carries a description (the
description extracted earlier is dropped when title cleaning leaves nothing). -/
theorem C10_parsed_task_invariant (input : Str) :
    ((TaskParserSkill.execute input).has_title = true ↔
      (TaskParserSkill.execute input).title ≠ []) ∧
    ((TaskParserSkill.execute input).has_title = false →
      (TaskParserSkill.execute input).description = none) := by
  unfold TaskParserSkill.execute
  split
  · simp
  · by_cases htitle :
      TaskParserSkill.cleanTitle
        (TaskParserSkill.stripPrefixes
          (TaskParserSkill.extractDescription (pyStrip input)).1) = []
    · simp [htitle]
    · simp [htitle]
